import Mathlib

/-!
Verification of `src/onionshare_gui/tab_widget.py` (class `TabWidget`).

The Python class keeps a registry `self.tabs : dict[int, Tab]`, a counter
`self.current_tab_id`, and the Qt visual tab strip (ordered pages plus their
displayed title and icon).  ` Tab` objects are external collaborators; the
attributes the widget reads from them (`tab_id`, `settings.id`,
`settings.get("persistent", "enabled")`, `close_tab()`, `get_mode()`) are
embedded as fields fixed at construction time.  The Settings store is embedded
as the value last written to the key `persistent_tabs` plus a count of
`save()` calls; on-disk mode-settings deletion is recorded as the list of
settings ids passed to `settings.delete()`.
-/

namespace OnionShareTW

/-- Collaborator `ServerStatus` (only its `status` field is read). -/
structure ServerStatus where
  status : Nat
deriving DecidableEq, Repr

/-- Modelled from the spec: the collaborator constant
`ServerStatus.STATUS_STOPPED`, the idle status code compared against in
`are_tabs_active`.  Its concrete value is irrelevant to the widget. -/
def STATUS_STOPPED : Nat := 0

/-- Collaborator mode object returned by `Tab.get_mode()`. -/
structure Mode where
  server_status : ServerStatus
deriving DecidableEq, Repr

/-- A `Tab` collaborator, restricted to the attributes `TabWidget` reads:
`tab_id`, `settings.id`, `settings.get("persistent", "enabled")`,
the `close_tab()` confirmation result, and the `get_mode()` result. -/
structure Tab where
  tab_id : Nat
  settings_id : Nat
  persistent : Bool
  can_close : Bool
  mode : Option Mode
deriving DecidableEq, Repr

/-- The externally-determined data of a tab about to be constructed
(everything of a `Tab` except the id, which the widget allocates). -/
structure TabData where
  settings_id : Nat
  persistent : Bool
  can_close : Bool
  mode : Option Mode
deriving DecidableEq, Repr

/-- `Tab(self.common, self.current_tab_id, ...)` followed by `tab.init(...)`:
a tab carrying the allocated id and the external data. -/
def mkTab (id : Nat) (d : TabData) : Tab :=
  ⟨id, d.settings_id, d.persistent, d.can_close, d.mode⟩

/-- One page of the visual strip: the page widget (the `Tab`) together with
the tab-bar label and icon displayed at its index. -/
structure StripEntry where
  tab : Tab
  title : String
  icon : String
deriving DecidableEq, Repr

/-- The Settings store as seen by this widget: the current value of the key
`persistent_tabs` and the number of `save()` flushes performed. -/
structure SettingsStore where
  persistent_tabs : List Nat
  save_count : Nat
deriving DecidableEq, Repr

/-- State of a `TabWidget`: registry dict `self.tabs` (insertion-ordered
association list with unique keys, as a Python dict), the id counter, the
visual strip, the Settings store, and the settings ids deleted from disk. -/
structure TabWidget where
  tabs : List (Nat × Tab)
  current_tab_id : Nat
  strip : List StripEntry
  settings : SettingsStore
  deletedSettings : List Nat
deriving DecidableEq, Repr

/-- Python dict assignment `d[k] = v`: replace in place if the key exists
(dicts keep the original position), else append. -/
def dictInsert (ts : List (Nat × Tab)) (k : Nat) (v : Tab) : List (Nat × Tab) :=
  if ts.any (fun p => p.1 = k) then
    ts.map (fun p => if p.1 = k then (k, v) else p)
  else
    ts ++ [(k, v)]

/-- Python `del d[k]`: `none` models the `KeyError` on a missing key. -/
def dictDel (ts : List (Nat × Tab)) (k : Nat) : Option (List (Nat × Tab)) :=
  if ts.any (fun p => p.1 = k) then
    some (ts.filter (fun p => ¬ p.1 = k))
  else
    none

/-- The loop body of `save_persistent_tabs`: for each visual index in order,
`tab = self.widget(index)`; if `tab.settings.get("persistent", "enabled")`
then append `tab.settings.id`. -/
def persistentTabsOf : List StripEntry → List Nat
  | [] => []
  | e :: rest =>
    if e.tab.persistent then e.tab.settings_id :: persistentTabsOf rest
    else persistentTabsOf rest

/-- `TabWidget.save_persistent_tabs`: recompute the ordered list of settings
ids of persistent tabs, `settings.set("persistent_tabs", ...)`, then
`settings.save()`. -/
def TabWidget.save_persistent_tabs (s : TabWidget) : TabWidget :=
  { s with settings :=
      { persistent_tabs := persistentTabsOf s.strip
        save_count := s.settings.save_count + 1 } }

/-- `TabWidget.change_persistent(tab_id, is_persistent)`: looks up
`self.tabs[tab_id]` (KeyError → `none`), swaps the tab-button indicator
(purely visual, not part of the modelled state), then calls
`save_persistent_tabs`. -/
def TabWidget.change_persistent (s : TabWidget) (tab_id : Nat)
    (_is_persistent : Bool) : Option TabWidget :=
  match List.lookup tab_id s.tabs with
  | none => none
  | some _ => some s.save_persistent_tabs

/-- `TabWidget.add_tab(mode_settings)`: construct the `Tab` with the current
counter value, register it, bump the counter, append a visual tab labelled
with the default title, and finish through
`change_persistent(tab.tab_id, tab.settings.get("persistent", "enabled"))`
which saves the persisted order.  (`setCurrentIndex` and `tab.init` touch no
modelled state.) -/
def TabWidget.add_tab (s : TabWidget) (d : TabData) : Option TabWidget :=
  let tab := mkTab s.current_tab_id d
  let s1 : TabWidget :=
    { s with
      tabs := dictInsert s.tabs s.current_tab_id tab
      current_tab_id := s.current_tab_id + 1
      strip := s.strip ++ [⟨tab, "gui_new_tab", ""⟩] }
  s1.change_persistent tab.tab_id tab.persistent

/-- The guard `if tab.settings.get("persistent", "enabled"):
tab.settings.delete()` inside `close_tab`: record the on-disk deletion of the
tab's mode settings when the tab is persistent. -/
def deleteSettingsIfPersistent (s : TabWidget) (t : Tab) : TabWidget :=
  if t.persistent then
    { s with deletedSettings := s.deletedSettings ++ [t.settings_id] }
  else s

/-- `TabWidget.close_tab(index)`: `tab = self.widget(index)` (invalid index →
`None` → attribute error, modelled as `none`); if `tab.close_tab()` permits:
delete on-disk settings when persistent, `removeTab(index)`,
`del self.tabs[tab.tab_id]`, reopen a blank tab if the strip became empty;
in every permitted-or-not outcome finish with `save_persistent_tabs`. -/
def TabWidget.close_tab (s : TabWidget) (index : Nat) (d : TabData) :
    Option TabWidget :=
  match s.strip[index]? with
  | none => none
  | some e =>
    if e.tab.can_close then
      let s1 : TabWidget := deleteSettingsIfPersistent s e.tab
      let s2 : TabWidget := { s1 with strip := s1.strip.eraseIdx index }
      match dictDel s2.tabs e.tab.tab_id with
      | none => none
      | some ts =>
        let s3 : TabWidget := { s2 with tabs := ts }
        if s3.strip.length = 0 then
          (s3.add_tab d).map TabWidget.save_persistent_tabs
        else
          some s3.save_persistent_tabs
    else
      some s.save_persistent_tabs

/-- Replace the displayed title at a visual index (`setTabText`); out-of-range
indices (Qt index `-1`) change nothing. -/
def updateTitle : List StripEntry → Nat → String → List StripEntry
  | [], _, _ => []
  | e :: rest, 0, t => { e with title := t } :: rest
  | e :: rest, i + 1, t => e :: updateTitle rest i t

/-- Replace the displayed icon at a visual index (`setTabIcon`); out-of-range
indices change nothing. -/
def updateIcon : List StripEntry → Nat → String → List StripEntry
  | [], _, _ => []
  | e :: rest, 0, p => { e with icon := p } :: rest
  | e :: rest, i + 1, p => e :: updateIcon rest i p

/-- `TabWidget.change_title(tab_id, title)`:
`index = self.indexOf(self.tabs[tab_id])` — the dict lookup raises `KeyError`
on an unknown id (modelled as `none`); `indexOf` of a widget not in the strip
yields `-1`, making `setTabText` a no-op. -/
def TabWidget.change_title (s : TabWidget) (tab_id : Nat) (title : String) :
    Option TabWidget :=
  match List.lookup tab_id s.tabs with
  | none => none
  | some tab =>
    match s.strip.findIdx? (fun e => e.tab.tab_id = tab.tab_id) with
    | none => some s
    | some i => some { s with strip := updateTitle s.strip i title }

/-- `TabWidget.change_icon(tab_id, icon_path)`: same lookup as
`change_title`, then `setTabIcon` with the resource path of `icon_path`. -/
def TabWidget.change_icon (s : TabWidget) (tab_id : Nat) (icon_path : String) :
    Option TabWidget :=
  match List.lookup tab_id s.tabs with
  | none => none
  | some tab =>
    match s.strip.findIdx? (fun e => e.tab.tab_id = tab.tab_id) with
    | none => some s
    | some i => some { s with strip := updateIcon s.strip i icon_path }

/-- `TabWidget.are_tabs_active`: scan the registry; return true on the first
tab whose `get_mode()` is non-null with a server status other than
`STATUS_STOPPED`. -/
def TabWidget.are_tabs_active (s : TabWidget) : Bool :=
  s.tabs.any (fun p =>
    match p.2.mode with
    | none => false
    | some m => m.server_status.status != STATUS_STOPPED)

/-- `TabWidget.move_new_tab_button`, geometry only: given the widget width,
the widths of the rendered tab headers (`tabRect(i).width()`), and the tab
bar's `sizeHint().width()`, the x coordinate the button is moved to. -/
def move_new_tab_button_x (width : Int) (tabRectWidths : List Int)
    (sizeHintWidth : Int) : Int :=
  if tabRectWidths.sum > width then width - 61 else sizeHintWidth

/-- The persisted order as the spec words it: the settings identifiers of the
tabs whose persistence flag is enabled, ordered by visual position. -/
def persistedOrderSpec (s : TabWidget) : List Nat :=
  (s.strip.filter (fun e => e.tab.persistent)).map (fun e => e.tab.settings_id)

lemma persistentTabsOf_eq_spec (strip : List StripEntry) :
    persistentTabsOf strip =
      (strip.filter (fun e => e.tab.persistent)).map (fun e => e.tab.settings_id) := by
  induction strip with
  | nil => rfl
  | cons e rest ih =>
    by_cases hp : e.tab.persistent <;>
      simp [persistentTabsOf, List.filter_cons, hp, ih]

lemma mkTab_tab_id (i : Nat) (d : TabData) : (mkTab i d).tab_id = i := rfl

lemma lookup_append_self (ts : List (Nat × Tab)) (k : Nat) (v : Tab)
    (h : ts.any (fun p => p.1 = k) = false) :
    List.lookup k (ts ++ [(k, v)]) = some v := by
  induction ts with
  | nil => simp
  | cons a rest ih =>
    obtain ⟨k1, v1⟩ := a
    simp only [List.any_cons, Bool.or_eq_false_iff, decide_eq_false_iff_not] at h
    have hk : (k == k1) = false := beq_eq_false_iff_ne.mpr (fun hkk => h.1 hkk.symm)
    simp [List.lookup_cons, hk, ih h.2]

lemma lookup_replace_self (ts : List (Nat × Tab)) (k : Nat) (v : Tab)
    (h : ts.any (fun p => p.1 = k) = true) :
    List.lookup k (ts.map (fun p => if p.1 = k then (k, v) else p)) = some v := by
  induction ts with
  | nil => simp at h
  | cons a rest ih =>
    obtain ⟨k1, v1⟩ := a
    simp only [List.map_cons]
    by_cases ha : k1 = k
    · simp [ha]
    · have hk : (k == k1) = false := beq_eq_false_iff_ne.mpr (fun hkk => ha hkk.symm)
      simp only [List.any_cons, Bool.or_eq_true, decide_eq_true_eq] at h
      rcases h with h | h
      · exact absurd h ha
      · simp [ha, List.lookup_cons, hk, ih h]

lemma lookup_dictInsert_self (ts : List (Nat × Tab)) (k : Nat) (v : Tab) :
    List.lookup k (dictInsert ts k v) = some v := by
  unfold dictInsert
  by_cases h : ts.any (fun p => p.1 = k) = true
  · simpa [h] using lookup_replace_self ts k v h
  · simp only [Bool.not_eq_true] at h
    simpa [h] using lookup_append_self ts k v h

/-- The state after `add_tab` registers and displays the freshly built tab,
before the final `save_persistent_tabs`. -/
def addTabCore (s : TabWidget) (d : TabData) : TabWidget :=
  { s with
    tabs := dictInsert s.tabs s.current_tab_id (mkTab s.current_tab_id d)
    current_tab_id := s.current_tab_id + 1
    strip := s.strip ++ [⟨mkTab s.current_tab_id d, "gui_new_tab", ""⟩] }

lemma add_tab_eq (s : TabWidget) (d : TabData) :
    s.add_tab d = some (addTabCore s d).save_persistent_tabs := by
  unfold TabWidget.add_tab TabWidget.change_persistent addTabCore
  simp [mkTab_tab_id, lookup_dictInsert_self]

/-- C1: `save_persistent_tabs` writes to the key `persistent_tabs` exactly
the settings ids of the persistent tabs in visual order, and flushes the
store once; nothing else in the state changes. -/
theorem C1_save_persistent_tabs_writes_visual_order (s : TabWidget) :
    (s.save_persistent_tabs).settings.persistent_tabs = persistedOrderSpec s ∧
    (s.save_persistent_tabs).settings.save_count = s.settings.save_count + 1 ∧
    (s.save_persistent_tabs).tabs = s.tabs ∧
    (s.save_persistent_tabs).strip = s.strip ∧
    (s.save_persistent_tabs).deletedSettings = s.deletedSettings := by
  refine ⟨?_, rfl, rfl, rfl, rfl⟩
  simpa [TabWidget.save_persistent_tabs, persistedOrderSpec] using
    persistentTabsOf_eq_spec s.strip

/-- C5: saving twice with no intervening change writes the same list both
times, and the call touches nothing beyond the store. -/
theorem C5_save_persistent_tabs_idempotent (s : TabWidget) :
    (s.save_persistent_tabs.save_persistent_tabs).settings.persistent_tabs =
      (s.save_persistent_tabs).settings.persistent_tabs ∧
    (s.save_persistent_tabs).tabs = s.tabs ∧
    (s.save_persistent_tabs).strip = s.strip ∧
    (s.save_persistent_tabs).current_tab_id = s.current_tab_id ∧
    (s.save_persistent_tabs).deletedSettings = s.deletedSettings := by
  exact ⟨rfl, rfl, rfl, rfl, rfl⟩

/-- C9: the new-tab button lands at `width - 61` exactly when the summed tab
header widths exceed the widget width, and at the tab bar's preferred width
otherwise. -/
theorem C9_move_new_tab_button (W H : Int) (ws : List Int) :
    (ws.sum > W → move_new_tab_button_x W ws H = W - 61) ∧
    (¬ ws.sum > W → move_new_tab_button_x W ws H = H) := by
  constructor <;> intro h <;> simp [move_new_tab_button_x, h]

/-- C9 witness. -/
theorem C9_move_new_tab_button_witness :
    move_new_tab_button_x 100 [70, 50] 15 = 39 ∧
    move_new_tab_button_x 200 [70, 50] 120 = 120 := by
  refine ⟨?_, ?_⟩
  · exact (C9_move_new_tab_button 100 15 [70, 50]).1 (by decide)
  · exact (C9_move_new_tab_button 200 120 [70, 50]).2 (by decide)

/-- C10: `are_tabs_active` is true iff some registered tab has a non-null
mode whose server status differs from `STATUS_STOPPED`; a container whose
tabs all lack a mode yields false. -/
theorem C10_are_tabs_active_iff (s : TabWidget) :
    (s.are_tabs_active = true ↔
      ∃ p ∈ s.tabs, ∃ m, p.2.mode = some m ∧
        m.server_status.status ≠ STATUS_STOPPED) ∧
    ((∀ p ∈ s.tabs, p.2.mode = none) → s.are_tabs_active = false) := by
  constructor
  · rw [TabWidget.are_tabs_active, List.any_eq_true]
    constructor
    · rintro ⟨p, hp, hb⟩
      refine ⟨p, hp, ?_⟩
      cases hm : p.2.mode with
      | none => rw [hm] at hb; simp at hb
      | some m =>
        rw [hm] at hb
        simp only [bne_iff_ne, ne_eq] at hb
        exact ⟨m, rfl, hb⟩
    · rintro ⟨p, hp, m, hm, hne⟩
      refine ⟨p, hp, ?_⟩
      rw [hm]
      simpa [bne_iff_ne] using hne
  · intro hall
    rw [TabWidget.are_tabs_active]
    simp only [List.any_eq_false]
    intro p hp
    simp [hall p hp]

/-- C10 witness. -/
theorem C10_are_tabs_active_witness :
    ({ tabs := [(0, ⟨0, 5, false, true, none⟩)]
       current_tab_id := 1
       strip := [⟨⟨0, 5, false, true, none⟩, "t", ""⟩]
       settings := ⟨[], 0⟩
       deletedSettings := [] } : TabWidget).are_tabs_active = false := by
  exact (C10_are_tabs_active_iff _).2 (by decide)

/-- C2: when the tab at the visual index vetoes closing, `close_tab` leaves
registry, strip and on-disk settings untouched, but still recomputes and
saves the persisted order, which equals the one a save before the call would
have produced. -/
theorem C2_close_denied_no_change (s : TabWidget) (index : Nat) (d : TabData)
    (e : StripEntry) (he : s.strip[index]? = some e)
    (hc : e.tab.can_close = false) :
    s.close_tab index d = some s.save_persistent_tabs ∧
    (s.save_persistent_tabs).tabs = s.tabs ∧
    (s.save_persistent_tabs).strip = s.strip ∧
    (s.save_persistent_tabs).deletedSettings = s.deletedSettings ∧
    (s.save_persistent_tabs).settings.persistent_tabs = persistedOrderSpec s ∧
    (s.save_persistent_tabs).settings.save_count = s.settings.save_count + 1 := by
  refine ⟨?_, rfl, rfl, rfl, ?_, rfl⟩
  · unfold TabWidget.close_tab
    rw [he]
    simp [hc]
  · simpa [TabWidget.save_persistent_tabs, persistedOrderSpec] using
      persistentTabsOf_eq_spec s.strip

/-- A one-tab container whose tab refuses to close (used by witnesses). -/
def vetoTab : Tab := ⟨0, 7, true, false, none⟩

/-- Concrete container holding only `vetoTab`. -/
def vetoState : TabWidget :=
  { tabs := [(0, vetoTab)]
    current_tab_id := 1
    strip := [⟨vetoTab, "t", ""⟩]
    settings := ⟨[7], 3⟩
    deletedSettings := [] }

/-- C2 witness. -/
theorem C2_close_denied_no_change_witness :
    vetoState.close_tab 0 ⟨9, false, true, none⟩ =
      some vetoState.save_persistent_tabs ∧
    (vetoState.save_persistent_tabs).settings.persistent_tabs =
      persistedOrderSpec vetoState :=
  ⟨(C2_close_denied_no_change vetoState 0 ⟨9, false, true, none⟩ ⟨vetoTab, "t", ""⟩
      (by decide) (by decide)).1,
   (C2_close_denied_no_change vetoState 0 ⟨9, false, true, none⟩ ⟨vetoTab, "t", ""⟩
      (by decide) (by decide)).2.2.2.2.1⟩

/-- Container with an empty registry (used to exhibit unknown-id failures). -/
def emptyState : TabWidget :=
  { tabs := []
    current_tab_id := 0
    strip := []
    settings := ⟨[], 0⟩
    deletedSettings := [] }

/-- C7 counterexample: with an unknown tab id, `change_title` and
`change_icon` do not succeed as no-ops — the registry lookup
`self.tabs[tab_id]` raises `KeyError` (embedded as `none`), so the call
fails rather than returning the unchanged state. -/
theorem C7_counterexample_unknown_id_fails :
    emptyState.change_title 0 "x" ≠ some emptyState ∧
    emptyState.change_icon 0 "p" ≠ some emptyState ∧
    emptyState.change_title 0 "x" = none ∧
    emptyState.change_icon 0 "p" = none := by
  refine ⟨by decide, by decide, rfl, rfl⟩

/-- C7 amended: with a tab id absent from the registry, `change_title` and
`change_icon` fail (KeyError) — the failure occurs before any mutation, so
no surviving state is produced and the registry and strip are untouched. -/
theorem C7_unknown_id_raises (s : TabWidget) (tab_id : Nat)
    (title icon_path : String)
    (h : List.lookup tab_id s.tabs = none) :
    s.change_title tab_id title = none ∧
    s.change_icon tab_id icon_path = none := by
  unfold TabWidget.change_title TabWidget.change_icon
  rw [h]
  exact ⟨rfl, rfl⟩

/-- C7 witness. -/
theorem C7_unknown_id_raises_witness :
    emptyState.change_title 3 "x" = none ∧
    emptyState.change_icon 3 "p" = none :=
  C7_unknown_id_raises emptyState 3 "x" "p" (by decide)

lemma dsip_tabs (s : TabWidget) (t : Tab) :
    (deleteSettingsIfPersistent s t).tabs = s.tabs := by
  unfold deleteSettingsIfPersistent; split <;> rfl

lemma dsip_strip (s : TabWidget) (t : Tab) :
    (deleteSettingsIfPersistent s t).strip = s.strip := by
  unfold deleteSettingsIfPersistent; split <;> rfl

lemma dsip_cur (s : TabWidget) (t : Tab) :
    (deleteSettingsIfPersistent s t).current_tab_id = s.current_tab_id := by
  unfold deleteSettingsIfPersistent; split <;> rfl

lemma dsip_settings (s : TabWidget) (t : Tab) :
    (deleteSettingsIfPersistent s t).settings = s.settings := by
  unfold deleteSettingsIfPersistent; split <;> rfl

lemma dsip_deleted (s : TabWidget) (t : Tab) :
    (deleteSettingsIfPersistent s t).deletedSettings =
      s.deletedSettings ++ (if t.persistent then [t.settings_id] else []) := by
  unfold deleteSettingsIfPersistent; split <;> simp

/-- The state right after a permitted close removed the tab (settings
deletion, `removeTab(index)`, `del self.tabs[...]`), before any reopening
or saving. -/
def closeTabCore (s : TabWidget) (index : Nat) (e : StripEntry) : TabWidget :=
  { deleteSettingsIfPersistent s e.tab with
    tabs := s.tabs.filter (fun p => ¬ p.1 = e.tab.tab_id)
    strip := s.strip.eraseIdx index }

lemma any_key_eq (ts : List (Nat × Tab)) (k : Nat) :
    ts.any (fun p => p.1 = k) = true ↔ k ∈ ts.map Prod.fst := by
  simp [List.any_eq_true, List.mem_map]

set_option maxRecDepth 4000 in
lemma close_tab_allowed_nonempty (s : TabWidget) (index : Nat) (d : TabData)
    (e : StripEntry) (he : s.strip[index]? = some e)
    (hc : e.tab.can_close = true)
    (hk : e.tab.tab_id ∈ s.tabs.map Prod.fst)
    (hl : ¬ (s.strip.eraseIdx index).length = 0) :
    s.close_tab index d = some (closeTabCore s index e).save_persistent_tabs := by
  have hk' : s.tabs.any (fun p => p.1 = e.tab.tab_id) = true :=
    (any_key_eq s.tabs e.tab.tab_id).mpr hk
  rw [TabWidget.close_tab, he]
  simp only [hc, if_true, dictDel, dsip_tabs, dsip_strip, hk', closeTabCore]
  rw [if_neg hl]

set_option maxRecDepth 4000 in
lemma close_tab_allowed_empty (s : TabWidget) (index : Nat) (d : TabData)
    (e : StripEntry) (he : s.strip[index]? = some e)
    (hc : e.tab.can_close = true)
    (hk : e.tab.tab_id ∈ s.tabs.map Prod.fst)
    (hl : (s.strip.eraseIdx index).length = 0) :
    s.close_tab index d =
      some ((addTabCore (closeTabCore s index e)
        d).save_persistent_tabs.save_persistent_tabs) := by
  have hk' : s.tabs.any (fun p => p.1 = e.tab.tab_id) = true :=
    (any_key_eq s.tabs e.tab.tab_id).mpr hk
  rw [TabWidget.close_tab, he]
  simp only [hc, if_true, dictDel, dsip_tabs, dsip_strip, hk', closeTabCore]
  rw [if_pos hl, add_tab_eq]
  rfl

lemma close_tab_none_of_key_missing (s : TabWidget) (index : Nat) (d : TabData)
    (e : StripEntry) (he : s.strip[index]? = some e)
    (hc : e.tab.can_close = true)
    (hk : e.tab.tab_id ∉ s.tabs.map Prod.fst) :
    s.close_tab index d = none := by
  have hk' : s.tabs.any (fun p => p.1 = e.tab.tab_id) = false := by
    rw [← Bool.not_eq_true]
    exact fun hany => hk ((any_key_eq s.tabs e.tab.tab_id).mp hany)
  rw [TabWidget.close_tab, he]
  simp only [hc, if_true, dictDel, dsip_tabs, dsip_strip, hk',
    Bool.false_eq_true, if_false]

lemma close_tab_denied (s : TabWidget) (index : Nat) (d : TabData)
    (e : StripEntry) (he : s.strip[index]? = some e)
    (hc : e.tab.can_close = false) :
    s.close_tab index d = some s.save_persistent_tabs := by
  rw [TabWidget.close_tab, he]
  simp only [hc, Bool.false_eq_true, if_false]

/-- Case analysis of every successful `close_tab` call. -/
lemma close_tab_cases (s : TabWidget) (i : Nat) (d : TabData) (s' : TabWidget)
    (h : s.close_tab i d = some s') :
    ∃ e, s.strip[i]? = some e ∧
      ((e.tab.can_close = false ∧ s' = s.save_persistent_tabs) ∨
       (e.tab.can_close = true ∧ e.tab.tab_id ∈ s.tabs.map Prod.fst ∧
         (((s.strip.eraseIdx i).length = 0 ∧
            s' = (addTabCore (closeTabCore s i e)
              d).save_persistent_tabs.save_persistent_tabs) ∨
          (¬ (s.strip.eraseIdx i).length = 0 ∧
            s' = (closeTabCore s i e).save_persistent_tabs)))) := by
  cases he : s.strip[i]? with
  | none =>
    rw [TabWidget.close_tab, he] at h
    exact absurd h (by simp)
  | some e =>
    refine ⟨e, rfl, ?_⟩
    by_cases hc : e.tab.can_close
    · by_cases hk : e.tab.tab_id ∈ s.tabs.map Prod.fst
      · refine Or.inr ⟨hc, hk, ?_⟩
        by_cases hl : (s.strip.eraseIdx i).length = 0
        · rw [close_tab_allowed_empty s i d e he hc hk hl] at h
          exact Or.inl ⟨hl, (Option.some_inj.mp h).symm⟩
        · rw [close_tab_allowed_nonempty s i d e he hc hk hl] at h
          exact Or.inr ⟨hl, (Option.some_inj.mp h).symm⟩
      · rw [close_tab_none_of_key_missing s i d e he hc hk] at h
        exact absurd h (by simp)
    · simp only [Bool.not_eq_true] at hc
      rw [close_tab_denied s i d e he hc] at h
      exact Or.inl ⟨hc, (Option.some_inj.mp h).symm⟩

/-- The tab ids of the visual strip, in display order. -/
def stripIds (s : TabWidget) : List Nat :=
  s.strip.map (fun e => e.tab.tab_id)

/-- The keys of the registry dict, in insertion order. -/
def keyList (s : TabWidget) : List Nat :=
  s.tabs.map Prod.fst

/-- Well-formedness of a reachable container state: registry keys are
distinct, the strip shows exactly the registered tabs (as a permutation of
the keys), and every key is below the id counter. -/
def WF (s : TabWidget) : Prop :=
  (keyList s).Nodup ∧ List.Perm (stripIds s) (keyList s) ∧
    ∀ k ∈ keyList s, k < s.current_tab_id

instance (s : TabWidget) : Decidable (WF s) := by
  unfold WF
  infer_instance

lemma wf_save_persistent_tabs (s : TabWidget) (h : WF s) :
    WF s.save_persistent_tabs := h

lemma map_fst_filter_key (ts : List (Nat × Tab)) (k : Nat) :
    (ts.filter (fun p => ¬ p.1 = k)).map Prod.fst =
      (ts.map Prod.fst).filter (fun x => ¬ x = k) := by
  induction ts with
  | nil => rfl
  | cons a rest ih =>
    by_cases ha : a.1 = k <;>
      · simp only [List.filter_cons, List.map_cons, ha, decide_True,
          decide_False, Bool.not_true, Bool.not_false, decide_not]
        simp only [decide_not] at ih
        simp [ha, ih]

lemma filter_ne_eq_erase (l : List Nat) (a : Nat) (hn : l.Nodup) :
    l.filter (fun x => ¬ x = a) = l.erase a := by
  rw [List.Nodup.erase_eq_filter hn]
  apply List.filter_congr
  intro x _
  by_cases hxa : x = a <;> simp [hxa]

lemma map_eraseIdx_ids (l : List StripEntry) (i : Nat) :
    (l.eraseIdx i).map (fun e => e.tab.tab_id) =
      (l.map (fun e => e.tab.tab_id)).eraseIdx i := by
  induction l generalizing i with
  | nil => rfl
  | cons x xs ih =>
    cases i with
    | zero => simp
    | succ j => simp [List.eraseIdx_cons_succ, ih]

lemma eraseIdx_eq_erase_of_nodup (l : List Nat) (i : Nat) (a : Nat)
    (hn : l.Nodup) (hi : l[i]? = some a) : l.eraseIdx i = l.erase a := by
  induction l generalizing i with
  | nil => simp at hi
  | cons x xs ih =>
    cases i with
    | zero =>
      simp only [List.getElem?_cons_zero, Option.some_inj] at hi
      subst hi
      simp [List.eraseIdx_cons_zero, List.erase_cons_head]
    | succ j =>
      simp only [List.getElem?_cons_succ] at hi
      have hmem : a ∈ xs := by
        rcases List.getElem?_eq_some.mp hi with ⟨hj, hget⟩
        exact hget ▸ List.getElem_mem hj
      have hx : ¬ x == a := by
        rcases List.nodup_cons.mp hn with ⟨hxmem, _⟩
        simp only [beq_iff_eq]
        intro hxa
        exact hxmem (hxa ▸ hmem)
      rw [List.eraseIdx_cons_succ, List.erase_cons,
        if_neg hx, ih j (List.nodup_cons.mp hn).2 hi]

lemma keyList_addTabCore (s : TabWidget) (d : TabData)
    (hfresh : s.current_tab_id ∉ keyList s) :
    keyList (addTabCore s d) = keyList s ++ [s.current_tab_id] := by
  have hany : s.tabs.any (fun p => p.1 = s.current_tab_id) = false := by
    rw [← Bool.not_eq_true]
    exact fun hx => hfresh ((any_key_eq s.tabs s.current_tab_id).mp hx)
  unfold keyList addTabCore dictInsert
  simp [hany]

lemma stripIds_addTabCore (s : TabWidget) (d : TabData) :
    stripIds (addTabCore s d) = stripIds s ++ [s.current_tab_id] := by
  unfold stripIds addTabCore
  simp [mkTab_tab_id]

lemma wf_addTabCore (s : TabWidget) (d : TabData) (hwf : WF s) :
    WF (addTabCore s d) := by
  obtain ⟨hnd, hperm, hlt⟩ := hwf
  have hfresh : s.current_tab_id ∉ keyList s :=
    fun hmem => lt_irrefl _ (hlt _ hmem)
  have hkeys := keyList_addTabCore s d hfresh
  have hstrip := stripIds_addTabCore s d
  have hcur : (addTabCore s d).current_tab_id = s.current_tab_id + 1 := rfl
  refine ⟨?_, ?_, ?_⟩
  · rw [hkeys, List.nodup_append]
    refine ⟨hnd, List.nodup_singleton _, ?_⟩
    intro x hx hxc
    rw [List.mem_singleton] at hxc
    exact hfresh (hxc ▸ hx)
  · rw [hkeys, hstrip]
    exact hperm.append_right _
  · rw [hkeys, hcur]
    intro k hk
    rcases List.mem_append.mp hk with hk | hk
    · exact lt_trans (hlt k hk) (Nat.lt_succ_self _)
    · rw [List.mem_singleton] at hk
      exact hk ▸ Nat.lt_succ_self _

lemma keyList_closeTabCore (s : TabWidget) (i : Nat) (e : StripEntry)
    (hnd : (keyList s).Nodup) :
    keyList (closeTabCore s i e) = (keyList s).erase e.tab.tab_id := by
  show (s.tabs.filter (fun p => ¬ p.1 = e.tab.tab_id)).map Prod.fst = _
  rw [map_fst_filter_key]
  exact filter_ne_eq_erase _ _ hnd

lemma stripIds_getElem? (s : TabWidget) (i : Nat) (e : StripEntry)
    (he : s.strip[i]? = some e) :
    (stripIds s)[i]? = some e.tab.tab_id := by
  unfold stripIds
  rw [List.getElem?_map, he]
  rfl

lemma stripIds_closeTabCore (s : TabWidget) (i : Nat) (e : StripEntry)
    (hsnd : (stripIds s).Nodup) (he : s.strip[i]? = some e) :
    stripIds (closeTabCore s i e) = (stripIds s).erase e.tab.tab_id := by
  show (s.strip.eraseIdx i).map (fun en => en.tab.tab_id) = _
  rw [map_eraseIdx_ids]
  exact eraseIdx_eq_erase_of_nodup _ i _ hsnd (stripIds_getElem? s i e he)

lemma wf_closeTabCore (s : TabWidget) (i : Nat) (e : StripEntry)
    (hwf : WF s) (he : s.strip[i]? = some e) : WF (closeTabCore s i e) := by
  obtain ⟨hnd, hperm, hlt⟩ := hwf
  have hkeys := keyList_closeTabCore s i e hnd
  have hsnd : (stripIds s).Nodup := (hperm.nodup_iff).mpr hnd
  have hstrip := stripIds_closeTabCore s i e hsnd he
  refine ⟨?_, ?_, ?_⟩
  · rw [hkeys]
    exact hnd.erase _
  · rw [hkeys, hstrip]
    exact hperm.erase _
  · rw [hkeys]
    intro k hk
    have hcc : (closeTabCore s i e).current_tab_id = s.current_tab_id :=
      dsip_cur s e.tab
    rw [hcc]
    exact hlt k (List.mem_of_mem_erase hk)

lemma wf_close_tab (s : TabWidget) (i : Nat) (d : TabData) (s' : TabWidget)
    (hwf : WF s) (h : s.close_tab i d = some s') : WF s' := by
  rcases close_tab_cases s i d s' h with
    ⟨e, he, ⟨_, rfl⟩ | ⟨_, _, ⟨_, rfl⟩ | ⟨_, rfl⟩⟩⟩
  · exact wf_save_persistent_tabs _ hwf
  · exact wf_save_persistent_tabs _ (wf_save_persistent_tabs _
      (wf_addTabCore _ _ (wf_closeTabCore s i e hwf he)))
  · exact wf_save_persistent_tabs _ (wf_closeTabCore s i e hwf he)

lemma wf_add_tab (s : TabWidget) (d : TabData) (s' : TabWidget)
    (hwf : WF s) (h : s.add_tab d = some s') : WF s' := by
  rw [add_tab_eq] at h
  rw [← Option.some_inj.mp h]
  exact wf_save_persistent_tabs _ (wf_addTabCore s d hwf)

lemma wf_length_eq (s : TabWidget) (hwf : WF s) :
    s.tabs.length = s.strip.length := by
  have := hwf.2.1.length_eq
  unfold stripIds keyList at this
  simpa using this.symm

lemma strip_addTabCore (s : TabWidget) (d : TabData) :
    (addTabCore s d).strip =
      s.strip ++ [⟨mkTab s.current_tab_id d, "gui_new_tab", ""⟩] := rfl

lemma strip_closeTabCore (s : TabWidget) (i : Nat) (e : StripEntry) :
    (closeTabCore s i e).strip = s.strip.eraseIdx i := rfl

lemma cur_closeTabCore (s : TabWidget) (i : Nat) (e : StripEntry) :
    (closeTabCore s i e).current_tab_id = s.current_tab_id :=
  dsip_cur s e.tab

lemma deleted_closeTabCore (s : TabWidget) (i : Nat) (e : StripEntry) :
    (closeTabCore s i e).deletedSettings =
      s.deletedSettings ++ (if e.tab.persistent then [e.tab.settings_id] else []) :=
  dsip_deleted s e.tab

lemma deleted_addTabCore (s : TabWidget) (d : TabData) :
    (addTabCore s d).deletedSettings = s.deletedSettings := rfl

/-- C4: for well-formed (reachable) states, the registry has as many entries
as the strip has tabs, and both `add_tab` and `close_tab` preserve
well-formedness and with it this equality. -/
theorem C4_registry_size_eq_strip_size (s : TabWidget) (hwf : WF s) :
    s.tabs.length = s.strip.length ∧
    (∀ d s', s.add_tab d = some s' →
      WF s' ∧ s'.tabs.length = s'.strip.length) ∧
    (∀ i d s', s.close_tab i d = some s' →
      WF s' ∧ s'.tabs.length = s'.strip.length) := by
  refine ⟨wf_length_eq s hwf, ?_, ?_⟩
  · intro d s' h
    have h' := wf_add_tab s d s' hwf h
    exact ⟨h', wf_length_eq s' h'⟩
  · intro i d s' h
    have h' := wf_close_tab s i d s' hwf h
    exact ⟨h', wf_length_eq s' h'⟩

/-- C4 witness. -/
theorem C4_registry_size_eq_strip_size_witness :
    vetoState.tabs.length = vetoState.strip.length :=
  (C4_registry_size_eq_strip_size vetoState (by decide)).1

/-- C3: a successful `close_tab` never leaves the container empty; closing
the only tab (when it permits closing) leaves exactly one freshly created
tab in both the strip and the registry. -/
theorem C3_close_tab_never_leaves_zero_tabs (s : TabWidget) (i : Nat)
    (d : TabData) (s' : TabWidget) (h : s.close_tab i d = some s') :
    s'.strip ≠ [] ∧
    (∀ e, WF s → s.strip = [e] → e.tab.can_close = true →
      s'.strip.length = 1 ∧ s'.tabs.length = 1 ∧
      ∃ en, s'.strip = [en] ∧ en.tab = mkTab s.current_tab_id d) := by
  rcases close_tab_cases s i d s' h with ⟨e0, he0, hcase⟩
  constructor
  · rcases hcase with ⟨_, rfl⟩ | ⟨_, _, ⟨hl, rfl⟩ | ⟨hl, rfl⟩⟩
    · show s.strip ≠ []
      intro hnil
      rw [hnil] at he0
      simp at he0
    · show (addTabCore (closeTabCore s i e0) d).strip ≠ []
      rw [strip_addTabCore]
      simp [List.append_eq_nil]
    · show (closeTabCore s i e0).strip ≠ []
      rw [strip_closeTabCore]
      intro hnil
      exact hl (by rw [hnil]; rfl)
  · intro e hwf hstrip hc
    have hi0 : i = 0 := by
      cases i with
      | zero => rfl
      | succ j =>
        rw [hstrip] at he0
        simp at he0
    subst hi0
    have hee : e0 = e := by
      rw [hstrip] at he0
      simp only [List.getElem?_cons_zero, Option.some_inj] at he0
      exact he0.symm
    subst hee
    have hl0 : (s.strip.eraseIdx 0).length = 0 := by
      rw [hstrip]
      rfl
    rcases hcase with ⟨hcf, _⟩ | ⟨_, _, ⟨_, hs'⟩ | ⟨hl, _⟩⟩
    · rw [hc] at hcf
      exact absurd hcf (by simp)
    · have hstrip' :
          s'.strip = [⟨mkTab s.current_tab_id d, "gui_new_tab", ""⟩] := by
        rw [hs']
        show (addTabCore (closeTabCore s 0 e0) d).strip = _
        rw [strip_addTabCore, cur_closeTabCore, strip_closeTabCore, hstrip]
        rfl
      have hwfS : WF s' := wf_close_tab s 0 d s' hwf h
      have hlen : s'.tabs.length = s'.strip.length := wf_length_eq s' hwfS
      refine ⟨by rw [hstrip']; rfl, by rw [hlen, hstrip']; rfl,
        ⟨_, hstrip', rfl⟩⟩
    · exact absurd hl0 hl

/-- A one-tab container whose persistent tab permits closing. -/
def closableTab : Tab := ⟨0, 7, true, true, none⟩

/-- Concrete container holding only `closableTab`. -/
def closableState : TabWidget :=
  { tabs := [(0, closableTab)]
    current_tab_id := 1
    strip := [⟨closableTab, "t", ""⟩]
    settings := ⟨[7], 1⟩
    deletedSettings := [] }

/-- The state `closableState` reaches after closing its only tab. -/
def closedResState : TabWidget :=
  { tabs := [(1, ⟨1, 9, false, true, none⟩)]
    current_tab_id := 2
    strip := [⟨⟨1, 9, false, true, none⟩, "gui_new_tab", ""⟩]
    settings := ⟨[], 3⟩
    deletedSettings := [7] }

/-- C3 witness. -/
theorem C3_close_tab_never_leaves_zero_tabs_witness :
    closedResState.strip ≠ [] ∧ closedResState.strip.length = 1 ∧
    closedResState.tabs.length = 1 :=
  have h := C3_close_tab_never_leaves_zero_tabs closableState 0
    ⟨9, false, true, none⟩ closedResState (by decide)
  have h2 := h.2 ⟨closableTab, "t", ""⟩ (by decide) (by decide) (by decide)
  ⟨h.1, h2.1, h2.2.1⟩

/-- C6: when the tab at the index permits closing and the call succeeds, the
tab's on-disk settings are deleted exactly when its persistence flag is set,
and the tab's id disappears from both the registry and the strip. -/
theorem C6_close_allowed_removes_tab (s : TabWidget) (i : Nat) (d : TabData)
    (s' : TabWidget) (e : StripEntry) (hwf : WF s)
    (he : s.strip[i]? = some e) (hc : e.tab.can_close = true)
    (h : s.close_tab i d = some s') :
    s'.deletedSettings = s.deletedSettings ++
      (if e.tab.persistent then [e.tab.settings_id] else []) ∧
    e.tab.tab_id ∉ keyList s' ∧ e.tab.tab_id ∉ stripIds s' := by
  obtain ⟨hnd, hperm, hlt⟩ := hwf
  have hsnd : (stripIds s).Nodup := hperm.nodup_iff.mpr hnd
  have hid_mem : e.tab.tab_id ∈ keyList s :=
    hperm.mem_iff.mp (List.mem_map_of_mem _ (List.getElem?_mem he))
  have hid_lt : e.tab.tab_id < s.current_tab_id := hlt _ hid_mem
  rcases close_tab_cases s i d s' h with ⟨e0, he0, hcase⟩
  have hee : e0 = e := Option.some_inj.mp (he0.symm.trans he)
  subst hee
  rcases hcase with ⟨hcf, _⟩ | ⟨_, _, ⟨_, hs'⟩ | ⟨_, hs'⟩⟩
  · rw [hc] at hcf
    exact absurd hcf (by simp)
  · have hwfC : WF (closeTabCore s i e0) :=
      wf_closeTabCore s i e0 ⟨hnd, hperm, hlt⟩ he0
    refine ⟨?_, ?_, ?_⟩
    · rw [hs']
      show (addTabCore (closeTabCore s i e0) d).deletedSettings = _
      rw [deleted_addTabCore, deleted_closeTabCore]
    · rw [hs']
      show e0.tab.tab_id ∉ keyList (addTabCore (closeTabCore s i e0) d)
      rw [keyList_addTabCore _ d
        (fun hmem => lt_irrefl _ (hwfC.2.2 _ hmem))]
      intro hmem
      rcases List.mem_append.mp hmem with hmem | hmem
      · rw [keyList_closeTabCore s i e0 hnd] at hmem
        exact hnd.not_mem_erase hmem
      · rw [List.mem_singleton, cur_closeTabCore] at hmem
        exact absurd (hmem ▸ hid_lt) (lt_irrefl _)
    · rw [hs']
      show e0.tab.tab_id ∉ stripIds (addTabCore (closeTabCore s i e0) d)
      rw [stripIds_addTabCore]
      intro hmem
      rcases List.mem_append.mp hmem with hmem | hmem
      · rw [stripIds_closeTabCore s i e0 hsnd he0] at hmem
        exact hsnd.not_mem_erase hmem
      · rw [List.mem_singleton, cur_closeTabCore] at hmem
        exact absurd (hmem ▸ hid_lt) (lt_irrefl _)
  · refine ⟨?_, ?_, ?_⟩
    · rw [hs']
      show (closeTabCore s i e0).deletedSettings = _
      rw [deleted_closeTabCore]
    · rw [hs']
      show e0.tab.tab_id ∉ keyList (closeTabCore s i e0)
      rw [keyList_closeTabCore s i e0 hnd]
      exact hnd.not_mem_erase
    · rw [hs']
      show e0.tab.tab_id ∉ stripIds (closeTabCore s i e0)
      rw [stripIds_closeTabCore s i e0 hsnd he0]
      exact hsnd.not_mem_erase

/-- C6 witness. -/
theorem C6_close_allowed_removes_tab_witness :
    closedResState.deletedSettings = [] ++ [7] ∧
    (0 : Nat) ∉ keyList closedResState ∧ (0 : Nat) ∉ stripIds closedResState :=
  have h := C6_close_allowed_removes_tab closableState 0 ⟨9, false, true, none⟩
    closedResState ⟨closableTab, "t", ""⟩ (by decide) (by decide) (by decide)
    (by decide)
  ⟨h.1, h.2.1, h.2.2⟩

lemma cur_addTabCore (s : TabWidget) (d : TabData) :
    (addTabCore s d).current_tab_id = s.current_tab_id + 1 := rfl

lemma add_tab_cur (s : TabWidget) (d : TabData) (s' : TabWidget)
    (h : s.add_tab d = some s') :
    s'.current_tab_id = s.current_tab_id + 1 := by
  rw [add_tab_eq] at h
  rw [← Option.some_inj.mp h]
  rfl

lemma close_tab_cur (s : TabWidget) (i : Nat) (d : TabData) (s' : TabWidget)
    (h : s.close_tab i d = some s') :
    s'.current_tab_id = s.current_tab_id ∨
      s'.current_tab_id = s.current_tab_id + 1 := by
  rcases close_tab_cases s i d s' h with
    ⟨e, he, ⟨_, rfl⟩ | ⟨_, _, ⟨_, rfl⟩ | ⟨_, rfl⟩⟩⟩
  · left; rfl
  · right
    show (addTabCore (closeTabCore s i e) d).current_tab_id = _
    rw [cur_addTabCore, cur_closeTabCore]
  · left
    exact cur_closeTabCore s i e

/-- User-level operations on one container. -/
inductive Op where
  | add (d : TabData)
  | close (index : Nat) (d : TabData)
deriving Repr

/-- Apply one operation to the container. -/
def applyOp (s : TabWidget) : Op → Option TabWidget
  | Op.add d => s.add_tab d
  | Op.close i d => s.close_tab i d

/-- The ids handed out while the counter moved from `s` to `sNext`:
`add_tab` assigns exactly the current counter value and bumps it by one, so
the assigned ids of one step are the counter interval it crossed. -/
def assignedIds (s sNext : TabWidget) : List Nat :=
  List.range' s.current_tab_id (sNext.current_tab_id - s.current_tab_id)

/-- Run a list of operations, collecting every id assigned along the way. -/
def runTrace (s : TabWidget) : List Op → Option (TabWidget × List Nat)
  | [] => some (s, [])
  | op :: ops =>
    match applyOp s op with
    | none => none
    | some sNext =>
      match runTrace sNext ops with
      | none => none
      | some (sFin, ids) => some (sFin, assignedIds s sNext ++ ids)

lemma applyOp_cur_mono (s : TabWidget) (op : Op) (s' : TabWidget)
    (h : applyOp s op = some s') :
    s.current_tab_id ≤ s'.current_tab_id := by
  cases op with
  | add d =>
    rw [applyOp] at h
    rw [add_tab_cur s d s' h]
    exact Nat.le_succ _
  | close i d =>
    rw [applyOp] at h
    rcases close_tab_cur s i d s' h with h' | h' <;> omega

lemma mem_range1_bounds (a n m : Nat) (hm : m ∈ List.range' a n) :
    a ≤ m ∧ m < a + n := by
  rcases List.mem_range'.mp hm with ⟨i, hi, rfl⟩
  omega

lemma pairwise_lt_range1 (a n : Nat) :
    (List.range' a n).Pairwise (· < ·) := by
  induction n generalizing a with
  | zero => simp
  | succ k ih =>
    rw [List.range'_succ]
    refine List.Pairwise.cons ?_ (ih (a + 1))
    intro m hm
    have := mem_range1_bounds (a + 1) k m hm
    omega

lemma runTrace_spec (s : TabWidget) (ops : List Op) (sFin : TabWidget)
    (ids : List Nat) (h : runTrace s ops = some (sFin, ids)) :
    s.current_tab_id ≤ sFin.current_tab_id ∧
    (∀ m ∈ ids, s.current_tab_id ≤ m ∧ m < sFin.current_tab_id) ∧
    ids.Pairwise (· < ·) := by
  induction ops generalizing s ids with
  | nil =>
    rw [runTrace] at h
    simp only [Option.some_inj, Prod.mk.injEq] at h
    obtain ⟨rfl, rfl⟩ := h
    exact ⟨le_refl _, by simp, List.Pairwise.nil⟩
  | cons op ops ih =>
    rw [runTrace] at h
    cases hap : applyOp s op with
    | none => rw [hap] at h; simp at h
    | some sNext =>
      simp only [hap] at h
      cases hrt : runTrace sNext ops with
      | none => simp only [hrt] at h; exact absurd h (by simp)
      | some p =>
        obtain ⟨sF, tl⟩ := p
        simp only [hrt, Option.some_inj, Prod.mk.injEq] at h
        obtain ⟨rfl, rfl⟩ := h
        have hmono : s.current_tab_id ≤ sNext.current_tab_id :=
          applyOp_cur_mono s op sNext hap
        obtain ⟨ihm, ihb, ihp⟩ := ih sNext tl hrt
        have hbnd : ∀ m ∈ assignedIds s sNext,
            s.current_tab_id ≤ m ∧ m < sNext.current_tab_id := by
          intro m hm
          have := mem_range1_bounds _ _ m hm
          omega
        refine ⟨le_trans hmono ihm, ?_, ?_⟩
        · intro m hm
          rcases List.mem_append.mp hm with hm | hm
          · have := hbnd m hm
            omega
          · have := ihb m hm
            omega
        · rw [List.pairwise_append]
          refine ⟨pairwise_lt_range1 _ _, ihp, ?_⟩
          intro a ha b hb
          have h1 := hbnd a ha
          have h2 := ihb b hb
          omega

/-- C8: over any successful run of `add_tab`/`close_tab` operations, the
trace of assigned tab ids is strictly increasing — each id handed out is
larger than all earlier ones and no id is ever reused. -/
theorem C8_ids_strictly_increasing_never_reused (s : TabWidget)
    (ops : List Op) (sFin : TabWidget) (ids : List Nat)
    (h : runTrace s ops = some (sFin, ids)) :
    ids.Pairwise (· < ·) ∧ ids.Nodup := by
  have hs := runTrace_spec s ops sFin ids h
  exact ⟨hs.2.2, hs.2.2.imp (fun hab => ne_of_lt hab)⟩

/-- Final state of the C8 witness run. -/
def c8FinState : TabWidget :=
  { tabs := [(0, ⟨0, 5, false, true, none⟩), (1, ⟨1, 6, true, true, none⟩)]
    current_tab_id := 2
    strip := [⟨⟨0, 5, false, true, none⟩, "gui_new_tab", ""⟩,
              ⟨⟨1, 6, true, true, none⟩, "gui_new_tab", ""⟩]
    settings := ⟨[6], 2⟩
    deletedSettings := [] }

/-- C8 witness. -/
theorem C8_ids_strictly_increasing_never_reused_witness :
    ([0, 1] : List Nat).Pairwise (· < ·) ∧ ([0, 1] : List Nat).Nodup :=
  C8_ids_strictly_increasing_never_reused emptyState
    [Op.add ⟨5, false, true, none⟩, Op.add ⟨6, true, true, none⟩]
    c8FinState [0, 1] (by decide)

end OnionShareTW
